import Mathlib

/-!
Verification of the Sensirion SPS030 serial driver
(`sensirion_sps030/sensirion_sps030.py` and
`sensirion_sps030/sensirion_error_codes.py`).

Bytes are modelled as natural numbers (the code only ever compares them
against constants below 256 and sums them modulo 256).  Python byte strings
become `List Nat`.  The blocking serial port is modelled as a finite trace of
read events: each `serial.read()` call consumes one event carrying the byte
it returned (`none` stands for the empty string `b''` that pyserial returns
on a serial-level timeout) together with the absolute time at which the call
returned.  Python behaviours that do not terminate or crash are represented
by explicit outcome constructors (`infiniteLoop`, `indexError`, `typeError`,
`hang`).
-/

namespace Sps030

/-! ## Byte stuffing (`Sensirion._stuff_bytes`, lines 307-330) -/

/-- Stuffing of a single byte: the body of the `for` loop of
`_stuff_bytes`.  The four reserved bytes become two-byte escape sequences,
everything else passes through unchanged. -/
def stuffByte (b : Nat) : List Nat :=
  if b = 0x7e then [0x7d, 0x5e]
  else if b = 0x7d then [0x7d, 0x5d]
  else if b = 0x11 then [0x7d, 0x31]
  else if b = 0x13 then [0x7d, 0x33]
  else [b]

/-- Model of `Sensirion._stuff_bytes`: concatenation of the per-byte
stuffings, in input order. -/
def stuff_bytes : List Nat → List Nat
  | [] => []
  | b :: rest => stuffByte b ++ stuff_bytes rest

/-- Possible outcomes of `Sensirion._unstuff_bytes`.  `indexError` models the
Python `IndexError` raised by `data[i + 1]` when `0x7D` is the final byte;
`infiniteLoop` models the fact that when `data[i] == 0x7D` and `data[i+1]`
is not one of the four escape codes no branch of the `if`/`elif` chain
fires, `i` is never advanced, and the `while` loop runs forever. -/
inductive UnstuffResult where
  | ok (out : List Nat)
  | indexError
  | infiniteLoop
deriving DecidableEq, Repr

/-- Helper: prepend a decoded byte to a successful unstuffing, propagate a
failure unchanged. -/
def UnstuffResult.consOk (b : Nat) : UnstuffResult → UnstuffResult
  | .ok out => .ok (b :: out)
  | r => r

/-- Model of `Sensirion._unstuff_bytes` (lines 332-362), with the
non-terminating and crashing behaviours reified as `infiniteLoop` and
`indexError`. -/
def unstuff_bytes : List Nat → UnstuffResult
  | [] => .ok []
  | b :: rest =>
    if b = 0x7d then
      match rest with
      | [] => .indexError
      | c :: rest2 =>
        if c = 0x5e then (unstuff_bytes rest2).consOk 0x7e
        else if c = 0x5d then (unstuff_bytes rest2).consOk 0x7d
        else if c = 0x31 then (unstuff_bytes rest2).consOk 0x11
        else if c = 0x33 then (unstuff_bytes rest2).consOk 0x13
        else .infiniteLoop
    else (unstuff_bytes rest).consOk b

/-- A byte list contains no unescaped reserved byte: scanning left to right,
every `0x7D` starts a two-byte escape with a valid second byte, and no other
position holds one of the four reserved values `0x7E`, `0x7D`, `0x11`,
`0x13`. -/
def noUnescapedReserved : List Nat → Bool
  | [] => true
  | b :: rest =>
    if b = 0x7d then
      match rest with
      | [] => false
      | c :: rest2 =>
        (c == 0x5e || c == 0x5d || c == 0x31 || c == 0x33)
          && noUnescapedReserved rest2
    else (b != 0x7e && b != 0x11 && b != 0x13) && noUnescapedReserved rest

/-! ## Checksum (`Sensirion._calculate_checksum`, lines 365-376) -/

/-- Model of `Sensirion._calculate_checksum`: sum of the data bytes plus the
header bytes, reduced mod 256 (the `bytes([...%256])` construction), then
inverted as `255 - lsb`.  The `>> 0` shift in the source is the identity. -/
def calculate_checksum (header data : List Nat) : Nat :=
  255 - ((data.sum + header.sum) % 256)

/-- Python slice `l[a:b]` for 0 ≤ a ≤ b (used as `recv[5:len-2]`, the form
`recv[5:-2]` takes for lists of length ≥ 2). -/
def pySlice (l : List Nat) (a b : Nat) : List Nat := (l.take b).drop a

/-- Model of `Sensirion._verify` (lines 119-132) on an unstuffed frame
`recv = [0x7E, address, command, status, length, payload…, checksum, 0x7E]`:
recompute the checksum over `recv[1]`, `recv[2]`, `recv[3]`, `recv[4]` as
header and `recv[5:-2]` as data, and compare with `recv[-2]`.  `true` means
the check passes; `false` means the code raises
`SensirionException("Checksum failure")`.  Callers always pass frames of
length ≥ 7, so the `getD` defaults are never consulted. -/
def verify (recv : List Nat) : Bool :=
  recv.getD (recv.length - 2) 0 ==
    calculate_checksum
      [recv.getD 1 0, recv.getD 2 0, recv.getD 3 0, recv.getD 4 0]
      (pySlice recv 5 (recv.length - 2))

/-- Model of `Sensirion._check_length` (lines 243-254): the declared length
byte `data[4]` must equal the number of bytes in `data[5:-2]`.  `true` means
the check passes; `false` means the code raises
`SensirionException("Wrong data length")`. -/
def check_length (data : List Nat) : Bool :=
  data.getD 4 0 == (pySlice data 5 (data.length - 2)).length

/-- Model of the message built by `Sensirion._tx` (lines 288-305): start
marker, then the stuffed address, command, payload length, payload and
checksum, then the closing marker.  The checksum is computed before any
stuffing, over header `address ++ command ++ len(data)` and the payload. -/
def tx_message (addr cmd : Nat) (data : List Nat) : List Nat :=
  let checksum := calculate_checksum [addr, cmd, data.length] data
  [0x7e] ++ stuff_bytes [addr] ++ stuff_bytes [cmd]
    ++ stuff_bytes [data.length] ++ stuff_bytes data
    ++ stuff_bytes [checksum] ++ [0x7e]

/-- Checksum recomputation following the specification's words: over exactly
the unstuffed address (`u[1]`), command (`u[2]`), length (`u[4]`) and
payload (`u[5:-2]`) of a received frame, the status byte excluded. -/
def verifySpecChecksum (u : List Nat) : Nat :=
  255 - ((u.getD 1 0 + u.getD 2 0 + u.getD 4 0
    + (pySlice u 5 (u.length - 2)).sum) % 256)

/-! ## Frame decode (`Sensirion._rx`, lines 171-241)

The serial port is a finite trace of read events.  Each `serial.read()`
consumes the next event; `val = none` models the empty result `b''` of a
serial-level timeout, and `time` is the absolute time (in arbitrary units,
`datetime.utcnow()` relative to the start of `_rx`) at which the read
returned.  The overall read deadline `read_timeout` is compared against the
current time only where the source does: at the top of the outer
marker-scanning `while` loop. -/

structure RxEvent where
  val : Option Nat
  time : Nat
deriving DecidableEq, Repr

/-- Outcomes of `_rx`.  `frame recv` is a normal return of the accumulated
bytes; `deviceError` is the `return False` taken on a nonzero status byte;
`msgIncomplete` is `SensirionException("Message incomplete")` raised when
the deadline expires during the marker scan; `wrongCommand` and
`wrongAddress` are the corresponding `SensirionException`s; `typeError` is
the uncaught Python `TypeError` raised by `ord(b'')` in the eagerly
evaluated logging calls when a header read returns empty; `hang` means the
trace ended inside a read loop that has no deadline check, i.e. the Python
code would still be blocked reading. -/
inductive RxOutcome where
  | frame (recv : List Nat)
  | deviceError
  | msgIncomplete
  | wrongCommand
  | wrongAddress
  | typeError
  | hang
deriving DecidableEq, Repr

/-- The resynchronization loop of `_rx` (lines 203-205): on a nonzero
status byte, read and discard bytes until a start/stop marker is consumed,
then `return False`.  No deadline check occurs here, so an exhausted trace
means the code is still blocked (`hang`). -/
def rxDrain : Option Nat → List RxEvent → RxOutcome
  | inp, [] => if inp = some 0x7e then .deviceError else .hang
  | inp, e :: rest =>
    if inp = some 0x7e then .deviceError else rxDrain e.val rest

/-- The body loop of `_rx` (lines 211-224): accumulate bytes until a
start/stop marker arrives, append the marker, and return the frame.  The
`logger.debug("Bytes : ...", ord(inp))` on line 218 evaluates `ord` eagerly
on each newly read byte, so an empty read inside the loop raises
`TypeError`.  No deadline check occurs here. -/
def rxBody : List Nat → Option Nat → List RxEvent → RxOutcome
  | recv, inp, [] =>
    if inp = some 0x7e then .frame (recv ++ [0x7e]) else .hang
  | recv, inp, e :: rest =>
    if inp = some 0x7e then .frame (recv ++ [0x7e])
    else
      match e.val with
      | none => .typeError
      | some b => rxBody (recv ++ inp.toList) (some b) rest

/-- The straight-line part of `_rx` after a start marker has been read
(lines 187-239): read and check the address byte, the command byte and the
status byte — raising `Wrong address` / `Wrong command` on a mismatch, and
`TypeError` (via the eager `ord`) on an empty read — then hand over to the
resynchronization drain (nonzero status) or the body loop (zero status).
No deadline check occurs anywhere in this part. -/
def rxHeader (addr cmd : Nat) : List RxEvent → RxOutcome
  | [] => .hang
  | e2 :: rest2 =>
    match e2.val with
    | none => .typeError
    | some a =>
      if a = addr then
        match rest2 with
        | [] => .hang
        | e3 :: rest3 =>
          match e3.val with
          | none => .typeError
          | some c =>
            if c = cmd then
              match rest3 with
              | [] => .hang
              | e4 :: rest4 =>
                match e4.val with
                | none => .typeError
                | some s =>
                  if s ≠ 0 then rxDrain (some s) rest4
                  else
                    match rest4 with
                    | [] => .hang
                    | e5 :: rest5 =>
                      rxBody [0x7e, addr, cmd, 0] e5.val rest5
            else .wrongCommand
      else .wrongAddress

/-- Model of `Sensirion._rx`: the outer `while` loop scans for the start
marker, re-checking `datetime.utcnow() < start + read_timeout` at each
iteration — and nowhere else; once a marker is seen, `rxHeader` takes over
with no further deadline checks.  `now` is the current time, updated to the
return time of each read, initially 0. -/
def rxScan (addr cmd readTimeout : Nat) : Nat → List RxEvent → RxOutcome
  | now, [] => if now < readTimeout then .hang else .msgIncomplete
  | now, e :: rest =>
    if now < readTimeout then
      if e.val = some 0x7e then rxHeader addr cmd rest
      else rxScan addr cmd readTimeout e.time rest
    else .msgIncomplete

/-- Entry point of `_rx`: the timer starts at 0. -/
def rx (addr cmd readTimeout : Nat) (evs : List RxEvent) : RxOutcome :=
  rxScan addr cmd readTimeout 0 evs

/-- Trace refuting claim C1 as stated: the start marker, address, command
and status arrive instantly, but the single body byte returns at time 50
and the closing marker at time 100, both far past the deadline of 1. -/
def c1events : List RxEvent :=
  [⟨some 0x7e, 0⟩, ⟨some 0, 0⟩, ⟨some 3, 0⟩, ⟨some 0, 0⟩,
   ⟨some 0x42, 50⟩, ⟨some 0x7e, 100⟩]

/-! ## Measurement decoding (`SensirionReading.__init__`, lines 41-58) -/

/-- The `SensirionException` messages this driver can raise, plus the
decode-level failure of `SensirionReading`. -/
inductive SErr where
  | messageIncomplete
  | wrongCommand
  | wrongAddress
  | wrongDataLength
  | checksumFailure
  | dataTooShort
deriving DecidableEq, Repr

/-- A decoded reading.  Each field holds the 32-bit big-endian word taken
from the frame; the word is the IEEE-754 single-precision bit pattern of
the float `struct.unpack('>f', ...)` would produce, which represents the
float value exactly. -/
structure SensirionReading where
  pm1 : Nat
  pm25 : Nat
  pm4 : Nat
  pm10 : Nat
  n05 : Nat
  n1 : Nat
  n25 : Nat
  n4 : Nat
  n10 : Nat
  tps : Nat
deriving DecidableEq, Repr

/-- The 32-bit big-endian word formed by `line[i:i+4]`
(`struct.unpack('>f', line[i:i+4])`, read as its bit pattern). -/
def be32 (line : List Nat) (i : Nat) : Nat :=
  line.getD i 0 * 16777216 + line.getD (i + 1) 0 * 65536
    + line.getD (i + 2) 0 * 256 + line.getD (i + 3) 0

/-- Model of `SensirionReading.__init__`: reject frames shorter than 46
bytes with `SensirionException("Data too short to parse")`, otherwise read
the ten 4-byte big-endian fields at offsets 5, 9, 13, …, 41 of the
unstuffed frame. -/
def mkSensirionReading (line : List Nat) : Except SErr SensirionReading :=
  if line.length < 46 then .error .dataTooShort
  else
    .ok
      { pm1 := be32 line 5
        pm25 := be32 line 9
        pm4 := be32 line 13
        pm10 := be32 line 17
        n05 := be32 line 21
        n1 := be32 line 25
        n25 := be32 line 29
        n4 := be32 line 33
        n10 := be32 line 37
        tps := be32 line 41 }

/-- Specification-side reading of the measurement payload: ten consecutive
4-byte big-endian fields starting at the payload offset 5 of the unstuffed
frame. -/
def specMeasurementFields (line : List Nat) : List Nat :=
  (List.range 10).map fun k => be32 line (5 + 4 * k)

/-- Packaging of the ten fields, in the fixed order mass concentrations
PM1/PM2.5/PM4/PM10, number concentrations N0.5/N1/N2.5/N4/N10, typical
particle size. -/
def readingOfFields (fs : List Nat) : SensirionReading :=
  ⟨fs.getD 0 0, fs.getD 1 0, fs.getD 2 0, fs.getD 3 0, fs.getD 4 0,
   fs.getD 5 0, fs.getD 6 0, fs.getD 7 0, fs.getD 8 0, fs.getD 9 0⟩

/-- Unstuffed 47-byte frame whose 40-byte payload encodes the ten
big-endian IEEE-754 floats 1.0, 2.0, 3.0, 4.0, 0.0, 0.0, 0.0, 0.0, 0.0,
5.0, with zero status and correct checksum 181. -/
def c8line : List Nat :=
  [0x7e, 0, 3, 0, 40,
   0x3f, 0x80, 0, 0,
   0x40, 0, 0, 0,
   0x40, 0x40, 0, 0,
   0x40, 0x80, 0, 0,
   0, 0, 0, 0,
   0, 0, 0, 0,
   0, 0, 0, 0,
   0, 0, 0, 0,
   0, 0, 0, 0,
   0x40, 0xa0, 0, 0,
   181, 0x7e]

/-- Unstuffed 27-byte frame with a 20-byte all-zero payload, zero status,
consistent length byte and correct checksum 232. -/
def c8short : List Nat :=
  [0x7e, 0, 3, 0, 20,
   0, 0, 0, 0, 0, 0, 0, 0, 0, 0, 0, 0, 0, 0, 0, 0, 0, 0, 0, 0,
   232, 0x7e]

/-! ## Error catalog (`sensirion_error_codes.py`) -/

/-- Lowercase hexadecimal digit. -/
def hexDigit (n : Nat) : Char :=
  if n < 10 then Char.ofNat (48 + n) else Char.ofNat (87 + n)

/-- Python `"%02x" % n` for a byte value `n < 256`: two lowercase hex
digits. -/
def hex2 (n : Nat) : String :=
  String.mk [hexDigit (n / 16 % 16), hexDigit (n % 16)]

/-- Model of `lookup_code`: the `CODES` dictionary lookup with the
`"Unknown Error 0x%02x" % code` fallback. -/
def lookup_code (code : Nat) : String :=
  if code = 0x00 then "OK"
  else if code = 0x01 then "Wrong data length for command"
  else if code = 0x02 then "Unknown command"
  else if code = 0x03 then "No Access right for command"
  else if code = 0x04 then "Illegal command parameter or parameter out of allowed range"
  else if code = 0x28 then "Internal function argument out of range"
  else if code = 0x43 then "Command not allowed in current state"
  else "Unknown Error 0x" ++ hex2 code

/-! ## Transaction manager (`Sensirion.read_measurement`, lines 262-286) -/

/-- Result of one attempt of `read_measurement`'s `try` block:
`sensirionError` is a raised `SensirionException` (caught and retried by
the `except` clause), `crash` is any other Python exception (`TypeError`,
`IndexError` — not caught, propagated immediately), `hang` means the
attempt never returns. -/
inductive AttemptResult where
  | success (r : SensirionReading)
  | sensirionError (e : SErr)
  | crash
  | hang
deriving DecidableEq, Repr

/-- One attempt of `read_measurement`: receive a frame with `_rx(0x00,
0x03)`, unstuff it, check its length, verify its checksum and decode a
`SensirionReading`.  When `_rx` returns `False` (nonzero device status),
the subsequent `self._unstuff_bytes(recv)` calls `len(False)` and raises
`TypeError`, an uncaught crash.  An unstuffing `IndexError` is likewise an
uncaught crash, and an unstuffing infinite loop hangs the attempt. -/
def attemptOnce (readTimeout : Nat) (events : List RxEvent) :
    AttemptResult :=
  match rx 0 3 readTimeout events with
  | .frame recv =>
    match unstuff_bytes recv with
    | .ok u =>
      if check_length u then
        if verify u then
          match mkSensirionReading u with
          | .ok r => .success r
          | .error e => .sensirionError e
        else .sensirionError .checksumFailure
      else .sensirionError .wrongDataLength
    | .indexError => .crash
    | .infiniteLoop => .hang
  | .deviceError => .crash
  | .msgIncomplete => .sensirionError .messageIncomplete
  | .wrongCommand => .sensirionError .wrongCommand
  | .wrongAddress => .sensirionError .wrongAddress
  | .typeError => .crash
  | .hang => .hang

/-- Overall outcome of `read_measurement`: a decoded reading, a re-raised
`SensirionException` (after the last attempt), an uncaught crash, a hang,
or the implicit `None` returned when the `while` loop never runs. -/
inductive RMOutcome where
  | reading (r : SensirionReading)
  | raised (e : SErr)
  | crashed
  | hung
  | noneReturned
deriving DecidableEq, Repr

/-- Outcome of `read_measurement` together with the number of attempts
performed (each attempt transmits and receives once) and the number of
`RETRY_SLEEP` backoff delays slept between attempts. -/
structure RMResult where
  outcome : RMOutcome
  attempts : Nat
  sleeps : Nat
deriving DecidableEq, Repr

/-- The fixed backoff delay `RETRY_SLEEP` (seconds) slept between retry
attempts. -/
def RETRY_SLEEP : Nat := 2

/-- The `while count <= self.retries` loop of `read_measurement`:
`retries` is kept an integer (it may be configured zero or negative),
`count` starts at 1, and `streams k` is the serial trace consumed by
attempt `k`.  On a caught `SensirionException` the failure is re-raised if
`count == self.retries`, otherwise the loop sleeps `RETRY_SLEEP` and
retries with `count + 1`. -/
def readMeasurementLoop (retries : Int) (readTimeout : Nat)
    (streams : Nat → List RxEvent) (count sleeps : Nat) : RMResult :=
  if h : (count : Int) ≤ retries then
    match attemptOnce readTimeout (streams count) with
    | .success r => ⟨.reading r, count, sleeps⟩
    | .sensirionError e =>
      if (count : Int) = retries then ⟨.raised e, count, sleeps⟩
      else
        readMeasurementLoop retries readTimeout streams (count + 1)
          (sleeps + 1)
    | .crash => ⟨.crashed, count, sleeps⟩
    | .hang => ⟨.hung, count, sleeps⟩
  else ⟨.noneReturned, count - 1, sleeps⟩
termination_by (retries + 1 - (count : Int)).toNat
decreasing_by
  simp_wf
  omega

/-- Model of `Sensirion.read_measurement`: run the retry loop from
`count = 1` with no backoff slept yet. -/
def read_measurement (retries : Int) (readTimeout : Nat)
    (streams : Nat → List RxEvent) : RMResult :=
  readMeasurementLoop retries readTimeout streams 1 0

/-- Serial trace of a response reporting device status 0x02 (Unknown
command): marker, address 0, command 3, status 2, one stale byte, then the
resynchronizing marker. -/
def c4events : List RxEvent :=
  [⟨some 0x7e, 0⟩, ⟨some 0, 0⟩, ⟨some 3, 0⟩, ⟨some 2, 0⟩,
   ⟨some 0x55, 0⟩, ⟨some 0x7e, 0⟩]

/-- Serial trace of a well-delimited frame whose body contains the
malformed escape `0x7D 0x01`: marker, address 0, command 3, status 0, the
bytes `0x7D 0x01`, closing marker. -/
def c5events : List RxEvent :=
  [⟨some 0x7e, 0⟩, ⟨some 0, 0⟩, ⟨some 3, 0⟩, ⟨some 0, 0⟩,
   ⟨some 0x7d, 0⟩, ⟨some 1, 0⟩, ⟨some 0x7e, 0⟩]

/-! ## Theorems -/

theorem unstuff_stuff (x : List Nat) :
    unstuff_bytes (stuff_bytes x) = .ok x := by
  induction x with
  | nil => rfl
  | cons b rest ih =>
    by_cases h1 : b = 0x7e
    · subst h1
      simp [stuff_bytes, stuffByte, unstuff_bytes, ih, UnstuffResult.consOk]
    · by_cases h2 : b = 0x7d
      · subst h2
        simp [stuff_bytes, stuffByte, unstuff_bytes, ih, UnstuffResult.consOk]
      · by_cases h3 : b = 0x11
        · subst h3
          simp [stuff_bytes, stuffByte, unstuff_bytes, ih, UnstuffResult.consOk]
        · by_cases h4 : b = 0x13
          · subst h4
            simp [stuff_bytes, stuffByte, unstuff_bytes, ih, UnstuffResult.consOk]
          · rw [stuff_bytes, stuffByte, if_neg h1, if_neg h2, if_neg h3,
              if_neg h4, List.singleton_append, unstuff_bytes.eq_def]
            simp [h2, ih, UnstuffResult.consOk]

theorem stuff_noUnescaped (x : List Nat) :
    noUnescapedReserved (stuff_bytes x) = true := by
  induction x with
  | nil => rfl
  | cons b rest ih =>
    by_cases h1 : b = 0x7e
    · subst h1; simp [stuff_bytes, stuffByte, noUnescapedReserved, ih]
    · by_cases h2 : b = 0x7d
      · subst h2; simp [stuff_bytes, stuffByte, noUnescapedReserved, ih]
      · by_cases h3 : b = 0x11
        · subst h3; simp [stuff_bytes, stuffByte, noUnescapedReserved, ih]
        · by_cases h4 : b = 0x13
          · subst h4; simp [stuff_bytes, stuffByte, noUnescapedReserved, ih]
          · rw [stuff_bytes, stuffByte, if_neg h1, if_neg h2, if_neg h3,
              if_neg h4, List.singleton_append, noUnescapedReserved.eq_def]
            simp [h1, h2, h3, h4, ih]

/-- Claim C2: for every byte sequence `x`, unstuffing the stuffed form of
`x` returns exactly `x`, and the output of stuffing never contains any of
the four reserved bytes `0x7E`, `0x7D`, `0x11`, `0x13` unescaped. -/
theorem claim_C2 (x : List Nat) :
    unstuff_bytes (stuff_bytes x) = .ok x ∧
    noUnescapedReserved (stuff_bytes x) = true :=
  ⟨unstuff_stuff x, stuff_noUnescaped x⟩

/-- Claim C3 (code bug evidence): on the input `[0x7D, 0x00]`, where `0x7D`
is followed by a byte outside the four escape codes, `_unstuff_bytes` never
advances its index and loops forever instead of reporting a malformed-escape
error; on the input `[0x7D]`, where `0x7D` is the last byte, it raises an
uncaught `IndexError` instead of reporting an error. -/
theorem claim_C3_bug :
    unstuff_bytes [0x7d, 0x00] = .infiniteLoop ∧
    unstuff_bytes [0x7d] = .indexError := by
  exact ⟨rfl, rfl⟩

/-- Claim C6: on every frame whose status byte is zero — which, per
`rxScan_frame_status_zero` below, covers every frame `_rx` ever hands to
`_verify` — checksum verification passes exactly when the transmitted
checksum byte `u[-2]` equals the checksum recomputed over the unstuffed
address, command, length and payload; equivalently it fails with a checksum
error exactly when they differ. -/
theorem claim_C6 (u : List Nat) (hstatus : u.getD 3 0 = 0) :
    verify u = true ↔
      u.getD (u.length - 2) 0 = verifySpecChecksum u := by
  have hsum :
      (pySlice u 5 (u.length - 2)).sum
        + List.sum [u.getD 1 0, u.getD 2 0, u.getD 3 0, u.getD 4 0]
      = u.getD 1 0 + u.getD 2 0 + u.getD 4 0
        + (pySlice u 5 (u.length - 2)).sum := by
    simp only [List.sum_cons, List.sum_nil]
    rw [hstatus]
    ring
  rw [verify, calculate_checksum, verifySpecChecksum, hsum, beq_iff_eq]

/-- Claim C7: for every address byte, command byte and payload of length at
most 255, the checksum transmitted by `_tx` sits in the frame before byte
stuffing is applied and equals `255 - ((a + c + len(p) + sum(p)) mod 256)`,
a single byte in `[0, 255]`. -/
theorem claim_C7 (a c : Nat) (p : List Nat) (hlen : p.length ≤ 255) :
    tx_message a c p
      = [0x7e] ++ stuff_bytes [a] ++ stuff_bytes [c]
        ++ stuff_bytes [p.length] ++ stuff_bytes p
        ++ stuff_bytes [255 - ((a + c + p.length + p.sum) % 256)] ++ [0x7e]
      ∧ 255 - ((a + c + p.length + p.sum) % 256) ≤ 255 := by
  have hsum : p.sum + List.sum [a, c, p.length]
      = a + c + p.length + p.sum := by
    simp only [List.sum_cons, List.sum_nil]
    ring
  constructor
  · rw [tx_message]
    rw [calculate_checksum, hsum]
  · exact Nat.sub_le _ _

/-- Witness for claim C6 at the 7-byte acknowledgment frame
`[0x7E, 0x00, 0x03, 0x00, 0x00, 0xFC, 0x7E]`, whose correct checksum is
`255 - (0 + 3 + 0) = 252`. -/
theorem claim_C6_witness :
    verify [0x7e, 0, 3, 0, 0, 252, 0x7e] = true :=
  (claim_C6 [0x7e, 0, 3, 0, 0, 252, 0x7e] (by decide)).mpr (by decide)

/-- Witness for claim C7 at address 0, command 3 (read-measurement) and the
empty payload. -/
theorem claim_C7_witness :
    ([] : List Nat).length ≤ 255 ∧
    (tx_message 0 3 []
      = [0x7e] ++ stuff_bytes [0] ++ stuff_bytes [3]
        ++ stuff_bytes [([] : List Nat).length] ++ stuff_bytes []
        ++ stuff_bytes
            [255 - ((0 + 3 + ([] : List Nat).length + ([] : List Nat).sum) % 256)]
        ++ [0x7e]
      ∧ 255 - ((0 + 3 + ([] : List Nat).length + ([] : List Nat).sum) % 256)
          ≤ 255) :=
  ⟨by decide, claim_C7 0 3 [] (by decide)⟩

/-- Once the deadline has passed, the next scan-loop check raises
`Message incomplete`. -/
theorem rxScan_timeout (addr cmd rt now : Nat) (evs : List RxEvent)
    (h : rt ≤ now) : rxScan addr cmd rt now evs = .msgIncomplete := by
  cases evs with
  | nil => simp [rxScan, Nat.not_lt.mpr h]
  | cons e rest => simp [rxScan, Nat.not_lt.mpr h]

/-- Retiming a trace (changing event times while keeping the bytes) does
not affect the resynchronization drain. -/
theorem rxDrain_retime (f : RxEvent → Nat) :
    ∀ (evs : List RxEvent) (inp : Option Nat),
      rxDrain inp (evs.map fun e => ⟨e.val, f e⟩) = rxDrain inp evs := by
  intro evs
  induction evs with
  | nil => intro inp; rfl
  | cons e rest ih =>
    obtain ⟨v, t⟩ := e
    intro inp
    by_cases h : inp = some 0x7e
    · simp [rxDrain, h]
    · simp only [List.map_cons, rxDrain, if_neg h]
      exact ih v

/-- Retiming a trace does not affect the body loop. -/
theorem rxBody_retime (f : RxEvent → Nat) :
    ∀ (evs : List RxEvent) (recv : List Nat) (inp : Option Nat),
      rxBody recv inp (evs.map fun e => ⟨e.val, f e⟩)
        = rxBody recv inp evs := by
  intro evs
  induction evs with
  | nil => intro recv inp; rfl
  | cons e rest ih =>
    obtain ⟨v, t⟩ := e
    intro recv inp
    by_cases h : inp = some 0x7e
    · simp [rxBody, h]
    · simp only [List.map_cons, rxBody, if_neg h]
      cases v with
      | none => rfl
      | some b => exact ih (recv ++ inp.toList) (some b)

/-- Retiming a trace does not affect the post-marker header processing. -/
theorem rxHeader_retime (addr cmd : Nat) (f : RxEvent → Nat) :
    ∀ evs : List RxEvent,
      rxHeader addr cmd (evs.map fun e => ⟨e.val, f e⟩)
        = rxHeader addr cmd evs := by
  intro evs
  rcases evs with _ | ⟨⟨v2, t2⟩, rest2⟩
  · rfl
  · rcases v2 with _ | a
    · rfl
    · rcases rest2 with _ | ⟨⟨v3, t3⟩, rest3⟩
      · rfl
      · rcases v3 with _ | c
        · rfl
        · rcases rest3 with _ | ⟨⟨v4, t4⟩, rest4⟩
          · rfl
          · rcases v4 with _ | s
            · rfl
            · rcases rest4 with _ | ⟨⟨v5, t5⟩, rest5⟩
              · rfl
              · simp only [List.map_cons, rxHeader]
                by_cases hs : s = 0
                · subst hs
                  simp only [ne_eq, not_true_eq_false, if_false,
                    reduceIte]
                  rw [rxBody_retime f rest5 [0x7e, addr, cmd, 0] v5]
                · simp only [ne_eq, hs, not_false_eq_true, if_true,
                    reduceIte]
                  have hd := rxDrain_retime f (⟨v5, t5⟩ :: rest5) (some s)
                  simp only [List.map_cons] at hd
                  rw [hd]

/-- Retiming every event after a consumed start marker does not affect the
outcome of the decode: no deadline check happens past the marker. -/
theorem rxScan_retime_after_marker (addr cmd rt now t : Nat)
    (evs : List RxEvent) (f : RxEvent → Nat) :
    rxScan addr cmd rt now
        (⟨some 0x7e, t⟩ :: evs.map fun e => ⟨e.val, f e⟩)
      = rxScan addr cmd rt now (⟨some 0x7e, t⟩ :: evs) := by
  by_cases hnow : now < rt
  · have hh := rxHeader_retime addr cmd f evs
    simp [rxScan, hnow, hh]
  · rw [rxScan_timeout addr cmd rt now _ (Nat.not_lt.mp hnow),
      rxScan_timeout addr cmd rt now _ (Nat.not_lt.mp hnow)]

/-- Claim C1 (amended): the decode's deadline is enforced only while
scanning for the start marker.  First conjunct: whenever a scan-loop check
finds the deadline expired, the decode fails with Timeout
(`Message incomplete`).  Second conjunct: a read that stalls past the
deadline while still scanning (any non-marker byte, or an empty serial
read, returning at or after the deadline) makes the decode fail with
Timeout.  Third conjunct: once the start marker has been consumed, the
outcome is invariant under arbitrary retiming of all subsequent reads, so a
stall after the marker — during the address, command, status or body reads
— can never produce Timeout. -/
theorem claim_C1_amended :
    (∀ (addr cmd rt now : Nat) (evs : List RxEvent), rt ≤ now →
        rxScan addr cmd rt now evs = .msgIncomplete) ∧
    (∀ (addr cmd rt now : Nat) (e : RxEvent) (evs : List RxEvent),
        now < rt → ¬ e.val = some 0x7e → rt ≤ e.time →
        rxScan addr cmd rt now (e :: evs) = .msgIncomplete) ∧
    (∀ (addr cmd rt now t : Nat) (evs : List RxEvent) (f : RxEvent → Nat),
        rxScan addr cmd rt now
            (⟨some 0x7e, t⟩ :: evs.map fun e => ⟨e.val, f e⟩)
          = rxScan addr cmd rt now (⟨some 0x7e, t⟩ :: evs)) := by
  refine ⟨rxScan_timeout, ?_, rxScan_retime_after_marker⟩
  intro addr cmd rt now e evs hnow hval ht
  obtain ⟨v, t⟩ := e
  simp only [rxScan, if_pos hnow]
  rw [if_neg hval]
  exact rxScan_timeout addr cmd rt t evs ht

/-- Witness for claim C1 (amended), exercising each conjunct at concrete
inputs: an expired deadline at the scan check; a stalling empty read during
the scan; and a retiming (all times set to 1000) of the trace of a complete
frame read after the start marker. -/
theorem claim_C1_amended_witness :
    rxScan 0 3 1 5 [] = .msgIncomplete ∧
    rxScan 0 3 1 0 [⟨none, 7⟩] = .msgIncomplete ∧
    rxScan 0 3 1 0
        (⟨some 0x7e, 0⟩ ::
          [(⟨some 0, 0⟩ : RxEvent), ⟨some 3, 0⟩, ⟨some 0, 0⟩,
            ⟨some 0x7e, 0⟩].map fun e => ⟨e.val, 1000⟩)
      = rxScan 0 3 1 0
          [⟨some 0x7e, 0⟩, ⟨some 0, 0⟩, ⟨some 3, 0⟩, ⟨some 0, 0⟩,
            ⟨some 0x7e, 0⟩] :=
  ⟨claim_C1_amended.1 0 3 1 5 [] (by decide),
   claim_C1_amended.2.1 0 3 1 0 ⟨none, 7⟩ [] (by decide) (by decide)
     (by decide),
   claim_C1_amended.2.2 0 3 1 0 0
     [⟨some 0, 0⟩, ⟨some 3, 0⟩, ⟨some 0, 0⟩, ⟨some 0x7e, 0⟩]
     (fun _ => 1000)⟩

/-- Counterexample to claim C1 as stated: with a read deadline of 1, body
reads stalling until times 50 and 100 do not make the decode fail with
Timeout — the decode returns the completed frame.  Slow trickling input
past the window is accepted, not timed out. -/
theorem claim_C1_counterexample :
    rxScan 0 3 1 0 c1events = .frame [0x7e, 0, 3, 0, 0x42, 0x7e] ∧
    rxScan 0 3 1 0 c1events ≠ .msgIncomplete := by
  exact ⟨by decide, by decide⟩

/-- Every frame the body loop returns extends the accumulator it entered
with. -/
theorem rxBody_frame_extends :
    ∀ (evs : List RxEvent) (recv : List Nat) (inp : Option Nat)
      (out : List Nat), rxBody recv inp evs = .frame out →
      ∃ tail, out = recv ++ tail := by
  intro evs
  induction evs with
  | nil =>
    intro recv inp out h
    simp only [rxBody] at h
    split at h
    · exact ⟨[0x7e], by simpa using h.symm⟩
    · exact absurd h (by simp)
  | cons e rest ih =>
    intro recv inp out h
    obtain ⟨v, t⟩ := e
    simp only [rxBody] at h
    split at h
    · exact ⟨[0x7e], by simpa using h.symm⟩
    · cases v with
      | none => exact absurd h (by simp)
      | some b =>
        obtain ⟨tail, htail⟩ := ih (recv ++ inp.toList) (some b) out h
        exact ⟨inp.toList ++ tail, by rw [htail, List.append_assoc]⟩

/-- The resynchronization drain never returns a frame. -/
theorem rxDrain_ne_frame :
    ∀ (evs : List RxEvent) (inp : Option Nat) (out : List Nat),
      rxDrain inp evs ≠ .frame out := by
  intro evs
  induction evs with
  | nil =>
    intro inp out h
    simp only [rxDrain] at h
    split at h
    · exact absurd h (by simp)
    · exact absurd h (by simp)
  | cons e rest ih =>
    intro inp out h
    obtain ⟨v, t⟩ := e
    simp only [rxDrain] at h
    split at h
    · exact absurd h (by simp)
    · exact ih v out h

/-- A frame returned through the post-marker header processing carries a
zero status byte in position 3. -/
theorem rxHeader_frame_status (addr cmd : Nat) (evs : List RxEvent)
    (out : List Nat) (h : rxHeader addr cmd evs = .frame out) :
    out.getD 3 99 = 0 := by
  rcases evs with _ |
    ⟨⟨_ | a, t2⟩, _ | ⟨⟨_ | c, t3⟩, _ | ⟨⟨_ | s, t4⟩, _ | ⟨⟨v5, t5⟩, rest5⟩⟩⟩⟩ <;>
    simp only [rxHeader] at h <;> (repeat split at h)
  all_goals
    first
      | exact absurd h (by simp)
      | exact absurd h (rxDrain_ne_frame _ _ _)
      | (obtain ⟨tail, htail⟩ := rxBody_frame_extends _ _ _ _ h;
          rw [htail]; rfl)

/-- Every frame `_rx` ever returns carries a zero status byte: the nonzero
status path drains and returns `False` instead, so the frames handed on to
unstuffing and checksum verification all have `recv[3] = 0`. -/
theorem rxScan_frame_status_zero :
    ∀ (evs : List RxEvent) (addr cmd rt now : Nat) (out : List Nat),
      rxScan addr cmd rt now evs = .frame out →
      out.getD 3 99 = 0 := by
  intro evs
  induction evs with
  | nil =>
    intro addr cmd rt now out h
    simp only [rxScan] at h
    split at h
    · exact absurd h (by simp)
    · exact absurd h (by simp)
  | cons e rest ih =>
    intro addr cmd rt now out h
    obtain ⟨v, t⟩ := e
    simp only [rxScan] at h
    split at h
    · split at h
      · exact rxHeader_frame_status _ _ _ _ h
      · exact ih _ _ _ _ _ h
    · exact absurd h (by simp)

/-- Claim C8: the measurement decoder fails with the truncated-payload
error exactly on inputs shorter than the 46-byte minimum, and otherwise
returns the ten consecutive 4-byte big-endian fields in the fixed order
pm1, pm2.5, pm4, pm10, the five number concentrations, then typical
particle size.  On the 40-byte payload encoding the floats
[1.0, 2.0, 3.0, 4.0, 0, 0, 0, 0, 0, 5.0] (a length-checked and
checksum-passing frame) it yields the bit patterns of pm1 = 1.0
(0x3F800000), pm25 = 2.0 (0x40000000), pm4 = 3.0 (0x40400000),
pm10 = 4.0 (0x40800000), tps = 5.0 (0x40A00000) and zero number
concentrations; a 20-byte-payload frame passes the length and checksum
checks but fails decoding with the truncated-payload error. -/
theorem claim_C8 :
    (∀ line : List Nat,
      mkSensirionReading line
        = if line.length < 46 then Except.error SErr.dataTooShort
          else Except.ok (readingOfFields (specMeasurementFields line))) ∧
    mkSensirionReading c8line
      = Except.ok
          ⟨0x3f800000, 0x40000000, 0x40400000, 0x40800000,
           0, 0, 0, 0, 0, 0x40a00000⟩ ∧
    check_length c8line = true ∧
    verify c8line = true ∧
    mkSensirionReading c8short = Except.error SErr.dataTooShort ∧
    check_length c8short = true ∧
    verify c8short = true := by
  refine ⟨?_, rfl, rfl, rfl, rfl, rfl, rfl⟩
  intro line
  rw [mkSensirionReading]
  split
  · rfl
  · have hr : List.range 10 = [0, 1, 2, 3, 4, 5, 6, 7, 8, 9] := rfl
    simp only [specMeasurementFields, hr, List.map_cons, List.map_nil,
      readingOfFields, List.getD_cons_zero, List.getD_cons_succ]

/-- Claim C9: the error-code lookup is a total pure function on status
bytes: the seven catalogued codes (no error 0x00, wrong length 0x01,
unknown command 0x02, no access right 0x03, illegal command parameter
0x04, illegal argument 0x28, command not allowed 0x43) map to their
specific descriptions, and every other status byte maps to the generic
"Unknown Error 0xNN" description; being a Lean function it never fails. -/
theorem claim_C9 :
    (lookup_code 0x00 = "OK" ∧
     lookup_code 0x01 = "Wrong data length for command" ∧
     lookup_code 0x02 = "Unknown command" ∧
     lookup_code 0x03 = "No Access right for command" ∧
     lookup_code 0x04
       = "Illegal command parameter or parameter out of allowed range" ∧
     lookup_code 0x28 = "Internal function argument out of range" ∧
     lookup_code 0x43 = "Command not allowed in current state") ∧
    ∀ code : Nat, code < 256 →
      code ∉ ([0x00, 0x01, 0x02, 0x03, 0x04, 0x28, 0x43] : List Nat) →
      lookup_code code = "Unknown Error 0x" ++ hex2 code := by
  refine ⟨⟨rfl, rfl, rfl, rfl, rfl, rfl, rfl⟩, ?_⟩
  intro code _ hmem
  simp only [List.mem_cons, List.not_mem_nil, or_false, not_or] at hmem
  obtain ⟨h0, h1, h2, h3, h4, h5, h6⟩ := hmem
  simp [lookup_code, h0, h1, h2, h3, h4, h5, h6]

/-- Witness for claim C9 at the uncatalogued status byte 0x10. -/
theorem claim_C9_witness :
    lookup_code 0x10 = "Unknown Error 0x" ++ hex2 0x10 :=
  claim_C9.2 0x10 (by decide) (by decide)

/-- Claim C4 (code bug evidence): on a response with nonzero status 0x02,
`_rx` does drain up to and including the next marker, but then returns the
bare sentinel `False` — the status byte is discarded, the Error Catalog
(whose entry for 0x02 is indeed "Unknown command") is never consulted, and
`read_measurement` then calls `_unstuff_bytes(False)`, which raises an
uncaught `TypeError` (`len(False)`): the transaction ends in a crash on
attempt 1 with no device-level failure surfaced to the caller. -/
theorem claim_C4_bug :
    rx 0 3 10 c4events = .deviceError ∧
    lookup_code 2 = "Unknown command" ∧
    attemptOnce 10 c4events = .crash ∧
    read_measurement 3 10 (fun _ => c4events) = ⟨.crashed, 1, 0⟩ := by
  have ha : attemptOnce 10 c4events = .crash := by decide
  refine ⟨by decide, rfl, ha, ?_⟩
  rw [read_measurement]
  rw [readMeasurementLoop]
  norm_num [ha]

/-- Claim C10: if the configured retry count is zero or negative, the
`while count <= self.retries` loop of `read_measurement` never runs: no
transmit or receive attempt is performed (0 attempts, 0 backoff sleeps) and
the function falls through to an implicit `return None`. -/
theorem claim_C10 (retries : Int) (rt : Nat)
    (streams : Nat → List RxEvent) (h : retries ≤ 0) :
    read_measurement retries rt streams = ⟨.noneReturned, 0, 0⟩ := by
  rw [read_measurement]
  rw [readMeasurementLoop]
  have hn : ¬ ((1 : Nat) : Int) ≤ retries := by omega
  rw [dif_neg hn]

/-- Witness for claim C10 with retries = -1. -/
theorem claim_C10_witness :
    read_measurement (-1) 5 (fun _ => []) = ⟨.noneReturned, 0, 0⟩ :=
  claim_C10 (-1) 5 (fun _ => []) (by decide)

/-- When every attempt from `count` through `retries` fails with a caught
`SensirionException`, the retry loop performs exactly the remaining
attempts, sleeps the fixed backoff between consecutive attempts, and
re-raises the failure of the final attempt unchanged. -/
theorem readMeasurementLoop_allFail (retries : Int) (rt : Nat)
    (streams : Nat → List RxEvent) (errs : Nat → SErr) :
    ∀ (n count sleeps : Nat), 1 ≤ count → (count : Int) ≤ retries →
      n = retries.toNat - count →
      (∀ k, count ≤ k → (k : Int) ≤ retries →
        attemptOnce rt (streams k) = .sensirionError (errs k)) →
      readMeasurementLoop retries rt streams count sleeps
        = ⟨.raised (errs retries.toNat), retries.toNat,
           sleeps + (retries.toNat - count)⟩ := by
  intro n
  induction n with
  | zero =>
    intro count sleeps h1 h2 h3 hf
    have hceq : (count : Int) = retries := by omega
    have hcn : count = retries.toNat := by omega
    rw [readMeasurementLoop, dif_pos h2, hf count le_rfl h2]
    dsimp only
    rw [if_pos hceq]
    rw [hcn, Nat.sub_self, Nat.add_zero]
  | succ n ih =>
    intro count sleeps h1 h2 h3 hf
    have hne : ¬ ((count : Int) = retries) := by omega
    rw [readMeasurementLoop, dif_pos h2, hf count le_rfl h2]
    dsimp only
    rw [if_neg hne]
    rw [ih (count + 1) (sleeps + 1) (by omega) (by omega) (by omega)
      (fun k hk hk2 => hf k (by omega) hk2)]
    have harith : sleeps + 1 + (retries.toNat - (count + 1))
        = sleeps + (retries.toNat - count) := by omega
    rw [harith]

/-- Claim C5 (amended): for every transient protocol failure that raises a
catchable `SensirionException` — Timeout (`Message incomplete`),
ChecksumMismatch (`Checksum failure`), LengthMismatch (`Wrong data
length`), CommandMismatch (`Wrong command`) or AddressMismatch (`Wrong
address`), but not MalformedEscape, which in this code hangs or crashes
without raising — `read_measurement` retries up to `retries` total
attempts with one fixed `RETRY_SLEEP` backoff between consecutive
attempts, and after the last attempt surfaces that attempt's failure
unchanged. -/
theorem claim_C5_amended (retries : Int) (rt : Nat)
    (streams : Nat → List RxEvent) (errs : Nat → SErr)
    (hr : 1 ≤ retries)
    (hf : ∀ k : Nat, 1 ≤ k → (k : Int) ≤ retries →
      attemptOnce rt (streams k) = .sensirionError (errs k) ∧
      errs k ∈ [SErr.messageIncomplete, SErr.checksumFailure,
        SErr.wrongDataLength, SErr.wrongCommand, SErr.wrongAddress]) :
    read_measurement retries rt streams
      = ⟨.raised (errs retries.toNat), retries.toNat,
         retries.toNat - 1⟩ := by
  rw [read_measurement]
  rw [readMeasurementLoop_allFail retries rt streams errs
    (retries.toNat - 1) 1 0 le_rfl (by omega) rfl
    (fun k hk hk2 => (hf k hk hk2).1)]
  rw [Nat.zero_add]

/-- Witness for claim C5 (amended): with retries = 3 and every attempt
timing out (a single empty read returning at time 5, past the deadline 1),
`read_measurement` makes 3 attempts, sleeps the backoff twice, and
re-raises the timeout of the third attempt. -/
theorem claim_C5_amended_witness :
    read_measurement 3 1 (fun _ => [⟨none, 5⟩])
      = ⟨.raised SErr.messageIncomplete, 3, 2⟩ :=
  claim_C5_amended 3 1 (fun _ => [⟨none, 5⟩])
    (fun _ => SErr.messageIncomplete) (by decide)
    (fun _ _ _ => ⟨rfl, List.Mem.head _⟩)

/-- Counterexample to claim C5 as stated: a MalformedEscape failure is not
retried.  With retries = 3, a received frame containing the invalid escape
`0x7D 0x01` makes attempt 1 hang inside `_unstuff_bytes` (claim C3): no
`SensirionException` is raised, no retry happens (1 attempt, 0 backoffs),
and no failure is surfaced to the caller. -/
theorem claim_C5_counterexample :
    attemptOnce 10 c5events = .hang ∧
    read_measurement 3 10 (fun _ => c5events) = ⟨.hung, 1, 0⟩ := by
  have ha : attemptOnce 10 c5events = .hang := by decide
  refine ⟨ha, ?_⟩
  rw [read_measurement]
  rw [readMeasurementLoop]
  norm_num [ha]

end Sps030
